import Mathlib

/-!
# Framed socket readers of the diagnostic client library

A shallow embedding of `boost-support/socket/tcp/tcp_client.cpp` (class `TcpClientSocket`),
`boost-support/socket/tcp/tls_server.cpp` (class `TcpServerConnection`) and
`libUtility/utility/logger.h` (class `Logger`), with the routing activation handler, of
which the sources hold the declarations only, modelled from the specification.

Conventions of the embedding.

* A byte (`std::uint8_t`) is a `Nat` below 256; `int`, `std::uint32_t` and `std::size_t`
  arithmetic is carried out on `Int`/`Nat` with the wrap-around written out.
* A `boost::system::error_code` is represented by its `value()`, an `Int`.
* The socket is an explicit environment: the bytes the peer still delivers and the error the
  stream ends with for the reads, the reported error code for every other call.  The calls a
  function issues are recorded so that theorems can speak about them.
* The socket functions are modelled without their logging calls, the endpoint queries made
  inside the logged writers included; `Logger` is modelled on its own, a `std::stringstream`
  being its content and a writer a function on that content.
* A library call that reports through an exception is part of the environment too: for
  `set_option`, `non_blocking`, `from_string` and the `remote_endpoint()` of the readers the
  environment says whether the call throws, and the result says that the function was left
  by an exception.  The `close` of `Shutdown` is taken to complete normally.
* An element access `v[i]` with `i` not below `v.size()` has no defined behaviour; a function
  that evaluates one ends there, and its result says so.
-/

/-! ## Error codes and results -/

/-- The value of `boost::system::errc::success`. -/
def errc_success : Int := 0

/-- The value of `boost::asio::error::eof`. -/
def asio_error_eof : Int := 2

/-- Modelled from the spec: the enumeration `TcpErrorCode` is declared in `tcp_client.h` and
`tls_server.h`, which are not among the sources.  These are the enumerators the sources use;
the spec lists the same three among its error kinds. -/
inductive TcpErrorCode where
  | kOpenFailed
  | kBindingFailed
  | kGenericError
  deriving DecidableEq, Repr

/-- Modelled from the spec: the template `core_type::Result` is not among the sources; the
spec writes these results as `Result<(), TransportErr>`.  `EmplaceValue()` gives
`Except.ok ()`, `EmplaceError(e)` and the initial `result{e}` give `Except.error e`. -/
abbrev TcpResult := Except TcpErrorCode Unit

deriving instance DecidableEq for Except

/-! ## Machine integers -/

/-- The value of a 32-bit `int` after an operation whose exact result is `x`
(two's complement wrap-around). -/
def int32_wrap (x : Int) : Int := (x + 2 ^ 31) % 2 ^ 32 - 2 ^ 31

/-- The conversion `static_cast<std::uint32_t>(x)`. -/
def to_uint32 (x : Int) : Nat := (x % 2 ^ 32).toNat

/-- The expression `b << k` for a `std::uint8_t` value `b`: the operand is promoted to `int`
and shifted as an `int`; a result that does not fit wraps around (two's complement, as
C++20 defines it and as the supported compilers do). -/
def shl_promoted (b k : Nat) : Int := int32_wrap ((b : Int) * 2 ^ k)

/-- Modelled from the spec: the constant `kDoipheadrSize` is declared in `tcp_client.h`
and `tls_server.h`, which are not among the sources; the generic header is 8 bytes. -/
def kDoipheadrSize : Nat := 8

/-! ## Buffers -/

/-- The call `std::vector<std::uint8_t>::resize(n)`: keeps the first `n` elements and fills up
with zeros. -/
def vector_resize (v : List Nat) (n : Nat) : List Nat :=
  v.take n ++ List.replicate (n - v.length) 0

/-- The effect of a read that transfers `data` into the buffer starting at index `pos`. -/
def buffer_store (v : List Nat) (pos : Nat) (data : List Nat) : List Nat :=
  v.take pos ++ data ++ v.drop (pos + data.length)

/-! ## The socket as an environment -/

/-- The peer's side of a byte stream: the bytes it still delivers, in order, and the error
code the stream ends with once they are used up (`asio_error_eof` when the peer closes,
another non-zero value for any other failure). -/
structure ByteStream where
  bytes : List Nat
  end_ec : Int
  end_is_error : end_ec ≠ errc_success
  deriving DecidableEq

/-- The outcome of one `boost::asio::read`: the bytes transferred into the buffer, the error
code, and the stream left for later reads. -/
structure ReadOutcome where
  data : List Nat
  ec : Int
  rest : ByteStream
  deriving DecidableEq

/-- The library call `boost::asio::read(socket, buffer(p, n), ec)`, as the environment of
the readers (the spec names it `ReadExact(n)`): it blocks until exactly `n` bytes have
arrived and signals the end of the stream otherwise.  The bytes transferred are the next `n` bytes of the
stream, or all that is left of it when that is less (`List.take`); the read succeeds exactly
when `n` bytes were there, and fails with the error the stream ends with otherwise. -/
def boost_asio_read (s : ByteStream) (n : Nat) : ReadOutcome :=
  ⟨s.bytes.take n,
   if n ≤ s.bytes.length then errc_success else s.end_ec,
   ⟨s.bytes.drop n, s.end_ec, s.end_is_error⟩⟩

/-- The result of `remote_endpoint()`: address (as `address().to_string()`) and port. -/
structure Endpoint where
  address : String
  port : Nat
  deriving DecidableEq, Repr

/-- Modelled from the spec: the class `TcpMessage` is declared in `tcp_message.h`, which is
not among the sources; the spec describes a message as an owned byte sequence with its
source endpoint.  The sources build it from the sender's address, the sender's port and a
buffer, and read the buffer to send through `GetTxBuffer()`. -/
structure TcpMessage where
  host_ip_address : String
  host_port_num : Nat
  buffer : List Nat
  deriving DecidableEq, Repr

/-- The calls a function issues on its socket, in program order. -/
inductive SocketCall where
  | sock_open
  | set_option_reuse_address (value : Bool)
  | non_blocking (mode : Bool)
  | bind (address : String) (port : Nat)
  | connect (address : String) (port : Nat)
  | tls_shutdown
  | shutdown_both
  | close
  | write (bytes : List Nat)
  | read (size : Nat)
  deriving DecidableEq, Repr

/-- How a call of a function ends: it returns; or an exception thrown by a library call
leaves it; or it evaluates an element access `v[i]` with `i` not below `v.size()`, from where
on the language defines no behaviour. -/
inductive Ending where
  | returned
  | threw
  | undefined_behaviour
  deriving DecidableEq, Repr

/-- What one framed read does besides changing the object, up to the point where it ends:
the socket calls, the sizes passed to `rx_buffer.resize`, the messages passed to the read
handler `tcp_handler_read_`, all in program order, the stream left, and how the call ends. -/
structure ReadEffects where
  calls : List SocketCall
  resizes : List Nat
  delivered : List TcpMessage
  stream : ByteStream
  ending : Ending
  deriving DecidableEq

/-- The expression `v[i]` of a `std::vector`: it designates an element only for
`i < v.size()`. -/
def vector_at (v : List Nat) (i : Nat) : Option Nat := v[i]?

/-- The data members of `TcpClientSocket` that the modelled functions read or write. -/
structure TcpClientSocket where
  local_ip_address_ : String
  local_port_num_ : Nat
  exit_request_ : Bool
  running_ : Bool
  deriving DecidableEq, Repr

/-- The data members of `TcpServerConnection` that the modelled functions read or write:
whether the underlying socket is open (`GetSocket().is_open()`). -/
structure TcpServerConnection where
  is_open : Bool
  deriving DecidableEq, Repr

namespace TcpClientSocket

/-- The lambda `read_next_bytes` of `TcpClientSocket::HandleMessage` (tcp_client.cpp 183-189). -/
def read_next_bytes (rx_buffer : List Nat) : Nat :=
  to_uint32 (Int.ofNat (
    ((to_uint32 (shl_promoted (rx_buffer.getD 4 0) 24) &&& 0xFF000000) |||
     (to_uint32 (shl_promoted (rx_buffer.getD 5 0) 16) &&& 0x00FF0000) |||
     (to_uint32 (shl_promoted (rx_buffer.getD 6 0) 8) &&& 0x0000FF00) |||
     (to_uint32 (Int.ofNat (rx_buffer.getD 7 0 &&& 0x000000FF))))))

end TcpClientSocket

namespace TcpServerConnection

/-- The lambda `read_next_bytes` of `TcpServerConnection::ReceivedMessage`
(tls_server.cpp 102-107). -/
def read_next_bytes (rx_buffer : List Nat) : Nat :=
  to_uint32 (Int.ofNat (
    ((to_uint32 (shl_promoted (rx_buffer.getD 4 0) 24) &&& 0xFF000000) |||
     (to_uint32 (shl_promoted (rx_buffer.getD 5 0) 16) &&& 0x00FF0000) |||
     (to_uint32 (shl_promoted (rx_buffer.getD 6 0) 8) &&& 0x0000FF00) |||
     (to_uint32 (Int.ofNat (rx_buffer.getD 7 0 &&& 0x000000FF))))))

end TcpServerConnection

namespace TcpClientSocket

/-- The constructor `TcpClientSocket::TcpClientSocket`: its member initialisers
(tcp_client.cpp 21-29).  The thread it starts is `reader_step` below. -/
def construct (local_ip_address : String) (local_port_num : Nat) : TcpClientSocket :=
  { local_ip_address_ := local_ip_address
    local_port_num_ := local_port_num
    exit_request_ := false
    running_ := false }

/-- The program points of the receive thread started by the constructor
(tcp_client.cpp 31-45). -/
inductive ReaderPc where
  | while_cond
  | if_not_running
  | wait
  | if_not_exit_request
  | if_running
  | handle_message
  | finished
  deriving DecidableEq, Repr

/-- One step of the receive thread, reading the flags as they are at that moment.
`cond_var_.wait(lck, pred)` returns only once `pred` holds; at `handle_message` the thread
calls `HandleMessage` and goes back to the loop condition. -/
def reader_step (self : TcpClientSocket) : ReaderPc → ReaderPc
  | .while_cond => if !self.exit_request_ then .if_not_running else .finished
  | .if_not_running => if !self.running_ then .wait else .if_not_exit_request
  | .wait => if self.exit_request_ || self.running_ then .if_not_exit_request else .wait
  | .if_not_exit_request => if !self.exit_request_ then .if_running else .while_cond
  | .if_running => if self.running_ then .handle_message else .while_cond
  | .handle_message => .while_cond
  | .finished => .finished

/-- The result of a member function returning `core_type::Result`: the returned value, the
object afterwards and the socket calls issued. -/
structure CallResult where
  result : TcpResult
  self : TcpClientSocket
  calls : List SocketCall
  deriving DecidableEq

/-- The result of `HandleMessage`: the object afterwards and what the call did. -/
structure HandleMessageResult where
  self : TcpClientSocket
  effects : ReadEffects
  deriving DecidableEq

/-- The function `TcpClientSocket::HandleMessage` (tcp_client.cpp 173-216), reading from
`socket`; `remote` is what `remote_endpoint()` returns, `none` when it throws.  The accesses
`rx_buffer[0u]` and `rx_buffer[4u]` to `rx_buffer[7u]` fall within the 8 elements of the
first resize; `rx_buffer[kDoipheadrSize]` of line 192 is evaluated on the buffer of the
second resize, before the payload read is called. -/
def HandleMessage (self : TcpClientSocket) (socket : ByteStream) (remote : Option Endpoint) :
    HandleMessageResult :=
  let rx_buffer : List Nat := []
  let rx_buffer := vector_resize rx_buffer kDoipheadrSize
  let header_read := boost_asio_read socket kDoipheadrSize
  let rx_buffer := buffer_store rx_buffer 0 header_read.data
  let ec := header_read.ec
  if ec = errc_success then
    let read_next_bytes := read_next_bytes rx_buffer
    let new_size := (kDoipheadrSize + read_next_bytes % 2 ^ 64) % 2 ^ 64
    let rx_buffer := vector_resize rx_buffer new_size
    if vector_at rx_buffer kDoipheadrSize = none then
      ⟨self,
       ⟨[.read kDoipheadrSize], [kDoipheadrSize, new_size], [], header_read.rest,
        .undefined_behaviour⟩⟩
    else
      let payload_read := boost_asio_read header_read.rest read_next_bytes
      let rx_buffer := buffer_store rx_buffer kDoipheadrSize payload_read.data
      match remote with
      | none =>
        ⟨self,
         ⟨[.read kDoipheadrSize, .read read_next_bytes], [kDoipheadrSize, new_size], [],
          payload_read.rest, .threw⟩⟩
      | some endpoint_ =>
        let tcp_rx_message : TcpMessage := ⟨endpoint_.address, endpoint_.port, rx_buffer⟩
        ⟨self,
         ⟨[.read kDoipheadrSize, .read read_next_bytes], [kDoipheadrSize, new_size],
          [tcp_rx_message], payload_read.rest, .returned⟩⟩
  else if ec = asio_error_eof then
    ⟨{ self with running_ := false },
     ⟨[.read kDoipheadrSize], [kDoipheadrSize], [], header_read.rest, .returned⟩⟩
  else
    ⟨{ self with running_ := false },
     ⟨[.read kDoipheadrSize], [kDoipheadrSize], [], header_read.rest, .returned⟩⟩

end TcpClientSocket

namespace TcpServerConnection

/-- The result of a member function returning `core_type::Result`: the returned value, the
connection afterwards and the socket calls issued. -/
structure CallResult where
  result : TcpResult
  self : TcpServerConnection
  calls : List SocketCall
  deriving DecidableEq

/-- The result of `ReceivedMessage`: the value of `connection_closed`, which is what the
function returns when it returns, and what the call did. -/
structure ReceivedMessageResult where
  connection_closed : Bool
  effects : ReadEffects
  deriving DecidableEq

/-- The function `TcpServerConnection::ReceivedMessage` (tls_server.cpp 90-135), reading from
`socket`; `remote` is what `remote_endpoint()` returns, `none` when it throws.  The access
`rx_buffer[kDoipheadrSize]` of line 110 is evaluated on the buffer of the second resize,
before the payload read is called. -/
def ReceivedMessage (socket : ByteStream) (remote : Option Endpoint) : ReceivedMessageResult :=
  let connection_closed := false
  let rx_buffer : List Nat := []
  let rx_buffer := vector_resize rx_buffer kDoipheadrSize
  let header_read := boost_asio_read socket kDoipheadrSize
  let rx_buffer := buffer_store rx_buffer 0 header_read.data
  let ec := header_read.ec
  if ec = errc_success then
    let read_next_bytes := read_next_bytes rx_buffer
    let new_size := (kDoipheadrSize + read_next_bytes % 2 ^ 64) % 2 ^ 64
    let rx_buffer := vector_resize rx_buffer new_size
    if vector_at rx_buffer kDoipheadrSize = none then
      ⟨connection_closed,
       ⟨[.read kDoipheadrSize], [kDoipheadrSize, new_size], [], header_read.rest,
        .undefined_behaviour⟩⟩
    else
      let payload_read := boost_asio_read header_read.rest read_next_bytes
      let rx_buffer := buffer_store rx_buffer kDoipheadrSize payload_read.data
      match remote with
      | none =>
        ⟨connection_closed,
         ⟨[.read kDoipheadrSize, .read read_next_bytes], [kDoipheadrSize, new_size], [],
          payload_read.rest, .threw⟩⟩
      | some endpoint_ =>
        let tcp_rx_message : TcpMessage := ⟨endpoint_.address, endpoint_.port, rx_buffer⟩
        ⟨connection_closed,
         ⟨[.read kDoipheadrSize, .read read_next_bytes], [kDoipheadrSize, new_size],
          [tcp_rx_message], payload_read.rest, .returned⟩⟩
  else if ec = asio_error_eof then
    let connection_closed := true
    ⟨connection_closed,
     ⟨[.read kDoipheadrSize], [kDoipheadrSize], [], header_read.rest, .returned⟩⟩
  else
    let connection_closed := true
    ⟨connection_closed,
     ⟨[.read kDoipheadrSize], [kDoipheadrSize], [], header_read.rest, .returned⟩⟩

/-- The function `TcpServerConnection::Shutdown` (tls_server.cpp 137-158); `tls_ec` and
`tcp_ec` are the error codes that the TLS shutdown and the TCP shutdown report.  Both calls
store into the same `ec`; the TCP shutdown overwrites what the TLS shutdown stored, so
`tls_ec` is never tested. -/
def Shutdown (self : TcpServerConnection) (_tls_ec tcp_ec : Int) : CallResult :=
  let result : TcpResult := Except.error TcpErrorCode.kGenericError
  if self.is_open then
    let ec := tcp_ec
    let calls := [SocketCall.tls_shutdown, .shutdown_both, .close]
    let self : TcpServerConnection := { self with is_open := false }
    if ec = errc_success then
      ⟨Except.ok (), self, calls⟩
    else
      ⟨result, self, calls⟩
  else
    ⟨result, self, []⟩

end TcpServerConnection

/-- The big-endian value of four bytes. -/
def be32 (b4 b5 b6 b7 : Nat) : Nat := b4 * 2 ^ 24 + b5 * 2 ^ 16 + b6 * 2 ^ 8 + b7

/-! ## The stages of one framed read, by name -/

/-- The first read of `HandleMessage` and `ReceivedMessage`: the header read. -/
def header_read (s : ByteStream) : ReadOutcome := boost_asio_read s kDoipheadrSize

/-- The value `read_next_bytes` that `HandleMessage` computes from the header it received. -/
def payload_len (s : ByteStream) : Nat := TcpClientSocket.read_next_bytes (header_read s).data

/-- The second read of `HandleMessage` and `ReceivedMessage`: the payload read. -/
def payload_read (s : ByteStream) : ReadOutcome :=
  boost_asio_read (header_read s).rest (payload_len s)

/-! ## Concrete streams -/

/-- A peer that closes the connection after six header bytes. -/
def six_header_bytes_then_eof : ByteStream :=
  ⟨[0x02, 0xFD, 0x80, 0x01, 0x00, 0x00], asio_error_eof, by decide⟩

/-- A frame announcing four payload bytes of which two arrive before the peer closes. -/
def payload_cut_short : ByteStream :=
  ⟨[0x02, 0xFD, 0x80, 0x01, 0x00, 0x00, 0x00, 0x04, 0x22, 0xF1], asio_error_eof, by decide⟩

/-- A complete frame with two payload bytes, followed by the first byte of the next one. -/
def two_byte_frame : ByteStream :=
  ⟨[0x02, 0xFD, 0x80, 0x01, 0x00, 0x00, 0x00, 0x02, 0x50, 0x03, 0x02], asio_error_eof,
    by decide⟩

/-- A client socket in the reading state. -/
def reading_socket : TcpClientSocket := ⟨"192.168.10.2", 0, false, true⟩

/-- The gateway address used in the examples. -/
def gateway : Endpoint := ⟨"192.168.10.1", 13400⟩

/-- A complete frame without payload: an alive check request, length field 0. -/
def zero_payload_frame : ByteStream :=
  ⟨[0x02, 0xFD, 0x00, 0x07, 0x00, 0x00, 0x00, 0x00], asio_error_eof, by decide⟩

/-! ## The receive thread next to other threads -/

namespace TcpClientSocket

/-- The assignments of the destructor `~TcpClientSocket` (tcp_client.cpp 48-53) before it
wakes the receive thread and joins it. -/
def destructor (self : TcpClientSocket) : TcpClientSocket :=
  let self := { self with exit_request_ := true }
  let self := { self with running_ := false }
  self

/-- The program points the receive thread reaches, step by step, when `selves` lists the
object as each successive step finds it (other threads may have changed it in between). -/
def reader_trace : List TcpClientSocket → ReaderPc → List ReaderPc
  | [], _ => []
  | self :: selves, pc => reader_step self pc :: reader_trace selves (reader_step self pc)

end TcpClientSocket

/-! ## The buffer at the second read -/

namespace TcpClientSocket

/-- The vector `rx_buffer` of `HandleMessage` after the resize of tcp_client.cpp 191, as
line 192 finds it when it evaluates `rx_buffer[kDoipheadrSize]`; this point is reached when
the header read succeeded. -/
def rx_buffer_at_payload_read (socket : ByteStream) : List Nat :=
  let rx_buffer : List Nat := []
  let rx_buffer := vector_resize rx_buffer kDoipheadrSize
  let header_read := boost_asio_read socket kDoipheadrSize
  let rx_buffer := buffer_store rx_buffer 0 header_read.data
  let read_next_bytes := read_next_bytes rx_buffer
  let rx_buffer := vector_resize rx_buffer ((kDoipheadrSize + read_next_bytes % 2 ^ 64) % 2 ^ 64)
  rx_buffer

end TcpClientSocket

namespace TcpServerConnection

/-- The vector `rx_buffer` of `ReceivedMessage` after the resize of tls_server.cpp 109, as
line 110 finds it when it evaluates `rx_buffer[kDoipheadrSize]`; this point is reached when
the header read succeeded. -/
def rx_buffer_at_payload_read (socket : ByteStream) : List Nat :=
  let rx_buffer : List Nat := []
  let rx_buffer := vector_resize rx_buffer kDoipheadrSize
  let header_read := boost_asio_read socket kDoipheadrSize
  let rx_buffer := buffer_store rx_buffer 0 header_read.data
  let read_next_bytes := read_next_bytes rx_buffer
  let rx_buffer := vector_resize rx_buffer ((kDoipheadrSize + read_next_bytes % 2 ^ 64) % 2 ^ 64)
  rx_buffer

end TcpServerConnection

/-! ## Logger -/

namespace Logger

/-- The value of `DLT_LOG_FATAL` in `dlt/dlt.h`. -/
def DLT_LOG_FATAL : Int := 1

/-- The value of `DLT_LOG_VERBOSE` in `dlt/dlt.h`. -/
def DLT_LOG_VERBOSE : Int := 6

/-- The conversion `.c_str()` as a reader of the C string sees it: the characters before the
first NUL. -/
def c_str (s : String) : String := String.mk (s.data.takeWhile (fun c => c ≠ Char.ofNat 0))

/-- The function `Logger::CreateLoggingMessage` (logger.h 91-98).  The stream `msg` is its
content; the writer `func` maps the content it finds to the content it leaves. -/
def CreateLoggingMessage (file_name _func_name : String) (line_no : Int)
    (func : String → String) : String :=
  let msg := ""
  let msg := func msg
  let msg := msg ++ " [" ++ file_name ++ ":" ++ toString line_no ++ "]"
  msg

/-- The function `Logger::LogDltMessage` (logger.h 101-107), parameters in the order of its
declaration; `enabled` is `DLT_IS_LOG_LEVEL_ENABLED(contxt_, .)`.  The result is the text
handed to `DLT_LOG`, if any. -/
def LogDltMessage (enabled : Int → Bool) (log_level : Int) (func_name file_name : String)
    (line_no : Int) (func : String → String) : Option String :=
  if enabled log_level then
    some (c_str (CreateLoggingMessage file_name func_name line_no func))
  else
    none

/-- The function `Logger::LogFatal` when `USE_DLT` is defined (logger.h 29). -/
def LogFatal_dlt (enabled : Int → Bool) (file_name : String) (line_no : Int)
    (func_name : String) (func : String → String) : Option String :=
  LogDltMessage enabled DLT_LOG_FATAL file_name func_name line_no func

/-- The function `Logger::LogFatal` when `USE_DLT` is not defined (logger.h 31): the text
written to `std::cout`. -/
def LogFatal_console (file_name : String) (line_no : Int) (func_name : String)
    (func : String → String) : String :=
  "[FATAL]:   " ++ CreateLoggingMessage file_name func_name line_no func ++ "\n"

/-- The function `Logger::LogError` when `USE_DLT` is defined (logger.h 38). -/
def LogError_dlt (enabled : Int → Bool) (file_name : String) (line_no : Int)
    (func_name : String) (func : String → String) : Option String :=
  LogDltMessage enabled DLT_LOG_VERBOSE file_name func_name line_no func

/-- The function `Logger::LogError` when `USE_DLT` is not defined (logger.h 40). -/
def LogError_console (file_name : String) (line_no : Int) (func_name : String)
    (func : String → String) : String :=
  "[ERROR]:   " ++ CreateLoggingMessage file_name func_name line_no func ++ "\n"

/-- The function `Logger::LogWarn` when `USE_DLT` is defined (logger.h 47). -/
def LogWarn_dlt (enabled : Int → Bool) (file_name : String) (line_no : Int)
    (func_name : String) (func : String → String) : Option String :=
  LogDltMessage enabled DLT_LOG_VERBOSE file_name func_name line_no func

/-- The function `Logger::LogWarn` when `USE_DLT` is not defined (logger.h 49). -/
def LogWarn_console (file_name : String) (line_no : Int) (func_name : String)
    (func : String → String) : String :=
  "[WARN]:    " ++ CreateLoggingMessage file_name func_name line_no func ++ "\n"

/-- The function `Logger::LogInfo` when `USE_DLT` is defined (logger.h 56). -/
def LogInfo_dlt (enabled : Int → Bool) (file_name : String) (line_no : Int)
    (func_name : String) (func : String → String) : Option String :=
  LogDltMessage enabled DLT_LOG_VERBOSE file_name func_name line_no func

/-- The function `Logger::LogInfo` when `USE_DLT` is not defined (logger.h 58). -/
def LogInfo_console (file_name : String) (line_no : Int) (func_name : String)
    (func : String → String) : String :=
  "[INFO]:    " ++ CreateLoggingMessage file_name func_name line_no func ++ "\n"

/-- The function `Logger::LogDebug` when `USE_DLT` is defined (logger.h 65). -/
def LogDebug_dlt (enabled : Int → Bool) (file_name : String) (line_no : Int)
    (func_name : String) (func : String → String) : Option String :=
  LogDltMessage enabled DLT_LOG_VERBOSE file_name func_name line_no func

/-- The function `Logger::LogDebug` when `USE_DLT` is not defined (logger.h 67). -/
def LogDebug_console (file_name : String) (line_no : Int) (func_name : String)
    (func : String → String) : String :=
  "[DEBUG]:   " ++ CreateLoggingMessage file_name func_name line_no func ++ "\n"

/-- The function `Logger::LogVerbose` when `USE_DLT` is defined (logger.h 74). -/
def LogVerbose_dlt (enabled : Int → Bool) (file_name : String) (line_no : Int)
    (func_name : String) (func : String → String) : Option String :=
  LogDltMessage enabled DLT_LOG_VERBOSE file_name func_name line_no func

/-- The function `Logger::LogVerbose` when `USE_DLT` is not defined (logger.h 76). -/
def LogVerbose_console (file_name : String) (line_no : Int) (func_name : String)
    (func : String → String) : String :=
  "[VERBOSE]: " ++ CreateLoggingMessage file_name func_name line_no func ++ "\n"

/-- The writer of the call in `TcpClientSocket::Open` that reports a failed bind, with the
message of the error left out. -/
def binding_failed_writer (msg : String) : String := msg ++ "Tcp Socket binding failed"

end Logger

/-! ## Routing activation handler -/

namespace RoutingActivationHandler

/-- Modelled from the spec: the sub-state of the handler lives in
`RoutingActivationHandlerImpl`, which `routing_activation_handler.h` only forward-declares;
its definition is not among the sources.  These are the routing sub-states of the spec. -/
inductive State where
  | kIdle
  | kWaitForRoutingActivationRes
  | kRoutingActivationSuccessful
  | kRoutingActivationFailed
  deriving DecidableEq, Repr

/-- Modelled from the spec: `HandleRoutingActivationRequest` is declared to return
`uds_transport::UdsTransportProtocolMgr::ConnectionResult`, a type declared outside the
sources; the spec names the two values with which the handler completes a request. -/
inductive ActivationResult where
  | kRoutingActivationSuccessful
  | kRoutingActivationFailed
  deriving DecidableEq, Repr

/-- Modelled from the spec: the class `DoipMessage` is not among the sources; of a received
frame the handler uses the payload type and, for a routing activation response, the client
logical address, the logical address of the responder and the response code. -/
structure DoipMessage where
  payload_type : Nat
  client_address : Nat
  server_address : Nat
  response_code : Nat
  deriving DecidableEq, Repr

/-- Modelled from the spec: payload type `0x0006`, routing activation response. -/
def kDoipRoutingActivationResponseType : Nat := 0x0006

/-- Modelled from the spec: response code `0x10`, routing successfully activated. -/
def kRoutingSuccessfullyActivated : Nat := 0x10

/-- Modelled from the spec: `ProcessDoIPRoutingActivationResponse` is only declared in the
sources.  In `kWaitForRoutingActivationRes` a frame of payload type `0x0006` moves the
handler to `kRoutingActivationSuccessful` when its response code is `0x10` and to
`kRoutingActivationFailed` otherwise, any other frame is ignored; in every other sub-state
the frame is dropped. -/
def ProcessDoIPRoutingActivationResponse (state : State) (doip_payload : DoipMessage) : State :=
  match state with
  | .kWaitForRoutingActivationRes =>
    if doip_payload.payload_type = kDoipRoutingActivationResponseType then
      if doip_payload.response_code = kRoutingSuccessfullyActivated then
        .kRoutingActivationSuccessful
      else
        .kRoutingActivationFailed
    else
      .kWaitForRoutingActivationRes
  | state => state

/-- Modelled from the spec: the wait of `HandleRoutingActivationRequest`, whose body is not
among the sources.  The handler is in `kWaitForRoutingActivationRes`; `received` lists the
frames handed to it before the timeout, in order.  The first frame that takes the handler
out of the waiting state completes the request: with `kRoutingActivationSuccessful` for
response code `0x10`, with `kRoutingActivationFailed` for any other; when no frame does, the
timeout moves the handler to `kRoutingActivationFailed` and completes the request with
`kRoutingActivationFailed`. -/
def WaitForResponse : List DoipMessage → ActivationResult × State
  | [] => (.kRoutingActivationFailed, .kRoutingActivationFailed)
  | doip_payload :: received =>
    match ProcessDoIPRoutingActivationResponse .kWaitForRoutingActivationRes doip_payload with
    | .kRoutingActivationSuccessful =>
      (.kRoutingActivationSuccessful, .kRoutingActivationSuccessful)
    | .kWaitForRoutingActivationRes => WaitForResponse received
    | _ => (.kRoutingActivationFailed, .kRoutingActivationFailed)

/-- Modelled from the spec: `HandleRoutingActivationRequest` is only declared in the sources
(routing_activation_handler.h 88-90).  From `kIdle` the request is written, the handler
moves to `kWaitForRoutingActivationRes` and the caller waits for the completion; the result
is the completion value together with the sub-state reached.  The state machine of the spec
has no such transition from any other sub-state: `none`. -/
def HandleRoutingActivationRequest (state : State) (received : List DoipMessage) :
    Option (ActivationResult × State) :=
  match state with
  | .kIdle => some (WaitForResponse received)
  | _ => none

/-- Modelled from the spec: `IsRoutingActivated` is only declared in the sources
(routing_activation_handler.h 96, "True if activated, otherwise False"); routing is
activated in the sub-state `kRoutingActivationSuccessful`. -/
def IsRoutingActivated (state : State) : Bool :=
  state == .kRoutingActivationSuccessful

/-- The response of the first scenario of the spec: client `0x0E80`, server `0x1234`,
response code `0x10`. -/
def activation_accepted : DoipMessage := ⟨0x0006, 0x0E80, 0x1234, 0x10⟩

/-- The response of the second scenario of the spec: response code `0x06`. -/
def activation_rejected : DoipMessage := ⟨0x0006, 0x0E80, 0x1234, 0x06⟩

end RoutingActivationHandler

/-! ## Lemmas on the length field -/

theorem to_uint32_shl_promoted (b k : Nat) (hk : b * 2 ^ k < 2 ^ 32) :
    to_uint32 (shl_promoted b k) = b * 2 ^ k := by
  unfold to_uint32 shl_promoted int32_wrap
  have h1 : ((b : Int) * 2 ^ k) = ((b * 2 ^ k : Nat) : Int) := by push_cast; rfl
  rw [h1]
  generalize b * 2 ^ k = x at hk
  norm_num at hk ⊢
  omega

theorem land_mask_shifted (b k : Nat) (hb : b < 256) :
    (b * 2 ^ k) &&& (255 * 2 ^ k) = b * 2 ^ k := by
  apply Nat.eq_of_testBit_eq
  intro i
  rw [Nat.mul_comm b, Nat.mul_comm 255, Nat.testBit_and, Nat.testBit_mul_pow_two,
    Nat.testBit_mul_pow_two]
  by_cases hik : k ≤ i
  · simp only [hik, decide_True, Bool.true_and]
    by_cases h8 : i - k < 8
    · have : Nat.testBit 255 (i - k) = true := by
        have : i - k ∈ Finset.range 8 := Finset.mem_range.mpr h8
        revert this
        generalize i - k = j
        revert j
        decide
      simp [this]
    · have : Nat.testBit b (i - k) = false := by
        apply Nat.testBit_eq_false_of_lt
        calc b < 256 := hb
          _ = 2 ^ 8 := by norm_num
          _ ≤ 2 ^ (i - k) := Nat.pow_le_pow_right (by norm_num) (by omega)
      simp [this]
  · simp [hik]

theorem to_uint32_ofNat (x : Nat) : to_uint32 (Int.ofNat x) = x % 2 ^ 32 := by
  unfold to_uint32
  have h : (Int.ofNat x) % 2 ^ 32 = ((x % 2 ^ 32 : Nat) : Int) := by
    simp [Int.ofNat_eq_coe]
  rw [h, Int.toNat_ofNat]

theorem lor_bytes (b4 b5 b6 b7 : Nat) (h5 : b5 < 256) (h6 : b6 < 256) (h7 : b7 < 256) :
    b4 * 2 ^ 24 ||| b5 * 2 ^ 16 ||| b6 * 2 ^ 8 ||| b7 = be32 b4 b5 b6 b7 := by
  have e1 : b4 * 2 ^ 24 ||| b5 * 2 ^ 16 = 2 ^ 16 * (b4 * 2 ^ 8 + b5) := by
    have := Nat.mul_add_lt_is_or (show b5 * 2 ^ 16 < 2 ^ 24 by omega) b4
    rw [Nat.mul_comm b4 (2 ^ 24), ← this]
    ring
  have e2 : 2 ^ 16 * (b4 * 2 ^ 8 + b5) ||| b6 * 2 ^ 8
      = 2 ^ 8 * (b4 * 2 ^ 16 + b5 * 2 ^ 8 + b6) := by
    have := Nat.mul_add_lt_is_or (show b6 * 2 ^ 8 < 2 ^ 16 by omega) (b4 * 2 ^ 8 + b5)
    rw [← this]
    ring
  have e3 : 2 ^ 8 * (b4 * 2 ^ 16 + b5 * 2 ^ 8 + b6) ||| b7
      = be32 b4 b5 b6 b7 := by
    have := Nat.mul_add_lt_is_or (show b7 < 2 ^ 8 by omega) (b4 * 2 ^ 16 + b5 * 2 ^ 8 + b6)
    rw [← this]
    unfold be32
    ring
  rw [e1, e2, e3]

theorem be32_lt (b4 b5 b6 b7 : Nat) (h4 : b4 < 256) (h5 : b5 < 256) (h6 : b6 < 256)
    (h7 : b7 < 256) : be32 b4 b5 b6 b7 < 2 ^ 32 := by
  unfold be32
  omega

/-- The value of the length expression shared by both readers, on bytes. -/
theorem length_expression_eq (b4 b5 b6 b7 : Nat) (h4 : b4 < 256) (h5 : b5 < 256)
    (h6 : b6 < 256) (h7 : b7 < 256) :
    to_uint32 (Int.ofNat (
      ((to_uint32 (shl_promoted b4 24) &&& 0xFF000000) |||
       (to_uint32 (shl_promoted b5 16) &&& 0x00FF0000) |||
       (to_uint32 (shl_promoted b6 8) &&& 0x0000FF00) |||
       (to_uint32 (Int.ofNat (b7 &&& 0x000000FF)))))) = be32 b4 b5 b6 b7 := by
  rw [to_uint32_shl_promoted b4 24 (by omega), to_uint32_shl_promoted b5 16 (by omega),
    to_uint32_shl_promoted b6 8 (by omega)]
  have m4 : (0xFF000000 : Nat) = 255 * 2 ^ 24 := by norm_num
  have m5 : (0x00FF0000 : Nat) = 255 * 2 ^ 16 := by norm_num
  have m6 : (0x0000FF00 : Nat) = 255 * 2 ^ 8 := by norm_num
  have m7 : (0x000000FF : Nat) = 2 ^ 8 - 1 := by norm_num
  rw [m4, m5, m6, land_mask_shifted b4 24 h4, land_mask_shifted b5 16 h5,
    land_mask_shifted b6 8 h6, m7, Nat.and_pow_two_sub_one_eq_mod, to_uint32_ofNat,
    to_uint32_ofNat, Nat.mod_eq_of_lt (show b7 % 2 ^ 8 < 2 ^ 32 by omega),
    Nat.mod_eq_of_lt (show b7 < 2 ^ 8 by omega), lor_bytes b4 b5 b6 b7 h5 h6 h7,
    Nat.mod_eq_of_lt (be32_lt b4 b5 b6 b7 h4 h5 h6 h7)]

theorem read_next_bytes_lt (rx : List Nat) : TcpClientSocket.read_next_bytes rx < 2 ^ 32 := by
  unfold TcpClientSocket.read_next_bytes
  rw [to_uint32_ofNat]
  exact Nat.mod_lt _ (by norm_num)

theorem server_read_next_bytes_eq (rx : List Nat) :
    TcpServerConnection.read_next_bytes rx = TcpClientSocket.read_next_bytes rx := rfl

/-! ## Lemmas on reads and buffers -/

theorem boost_asio_read_ec_success (s : ByteStream) (n : Nat) :
    (boost_asio_read s n).ec = errc_success ↔ n ≤ s.bytes.length := by
  unfold boost_asio_read
  by_cases h : n ≤ s.bytes.length
  · simp [h]
  · simp [h, s.end_is_error]

theorem boost_asio_read_data (s : ByteStream) (n : Nat) :
    (boost_asio_read s n).data = s.bytes.take n := rfl

theorem boost_asio_read_rest (s : ByteStream) (n : Nat) :
    (boost_asio_read s n).rest = ⟨s.bytes.drop n, s.end_ec, s.end_is_error⟩ := rfl

theorem boost_asio_read_data_length_le (s : ByteStream) (n : Nat) :
    (boost_asio_read s n).data.length ≤ n := by
  rw [boost_asio_read_data, List.length_take]
  omega

theorem boost_asio_read_data_of_success (s : ByteStream) (n : Nat)
    (h : (boost_asio_read s n).ec = errc_success) :
    (boost_asio_read s n).data = s.bytes.take n ∧ (boost_asio_read s n).data.length = n ∧
      (boost_asio_read s n).rest.bytes = s.bytes.drop n := by
  have hn := (boost_asio_read_ec_success s n).mp h
  refine ⟨rfl, ?_, rfl⟩
  rw [boost_asio_read_data, List.length_take]
  omega

theorem header_buffer_eq (data : List Nat) (h : data.length = kDoipheadrSize) :
    buffer_store (vector_resize [] kDoipheadrSize) 0 data = data := by
  unfold buffer_store vector_resize
  simp [h]

theorem payload_buffer_eq (hdr data : List Nat) (n : Nat) (h : hdr.length = kDoipheadrSize) :
    buffer_store (vector_resize hdr (kDoipheadrSize + n)) kDoipheadrSize data
      = hdr ++ data ++ List.replicate (n - data.length) 0 := by
  unfold buffer_store vector_resize
  have e1 : List.take (kDoipheadrSize + n) hdr = hdr := by
    apply List.take_of_length_le; omega
  rw [e1, h]
  have e2 : kDoipheadrSize + n - kDoipheadrSize = n := by omega
  rw [e2]
  have e3 : List.take kDoipheadrSize (hdr ++ List.replicate n 0) = hdr := by
    rw [← h]; exact List.take_left' rfl
  have e4 : List.drop (kDoipheadrSize + data.length) (hdr ++ List.replicate n 0)
      = List.replicate (n - data.length) 0 := by
    rw [← h, List.drop_append, List.drop_replicate]
  rw [e3, e4]

theorem boost_asio_read_header (s : ByteStream) (h : kDoipheadrSize ≤ s.bytes.length) :
    boost_asio_read s kDoipheadrSize
      = ⟨s.bytes.take kDoipheadrSize, errc_success,
          ⟨s.bytes.drop kDoipheadrSize, s.end_ec, s.end_is_error⟩⟩ := by
  unfold boost_asio_read
  simp [h]

theorem frame_size_eq (rx : List Nat) :
    (kDoipheadrSize + TcpClientSocket.read_next_bytes rx % 2 ^ 64) % 2 ^ 64
      = kDoipheadrSize + TcpClientSocket.read_next_bytes rx := by
  have := read_next_bytes_lt rx
  unfold kDoipheadrSize
  omega

theorem vector_resize_length (v : List Nat) (n : Nat) : (vector_resize v n).length = n := by
  unfold vector_resize
  rw [List.length_append, List.length_take, List.length_replicate]
  omega

theorem vector_at_eq_none_iff (v : List Nat) (i : Nat) : vector_at v i = none ↔ v.length ≤ i := by
  unfold vector_at
  exact List.getElem?_eq_none_iff

/-- The element access at the payload destination designates an element when the length
field is not zero. -/
theorem vector_at_payload_destination (hdr : List Nat) (n : Nat) (hn : 0 < n) :
    ¬ vector_at (vector_resize hdr (kDoipheadrSize + n)) kDoipheadrSize = none := by
  rw [vector_at_eq_none_iff, vector_resize_length]
  omega

/-- The element access at the payload destination designates no element when the length
field is zero. -/
theorem vector_at_payload_destination_zero (hdr : List Nat) (n : Nat) (hn : n = 0) :
    vector_at (vector_resize hdr (kDoipheadrSize + n)) kDoipheadrSize = none := by
  rw [vector_at_eq_none_iff, vector_resize_length]
  omega

/-- What `HandleMessage` does once the header has arrived with a length field that is not
zero, when `remote_endpoint()` returns. -/
theorem HandleMessage_header_ok (self : TcpClientSocket) (s : ByteStream) (remote : Endpoint)
    (h : kDoipheadrSize ≤ s.bytes.length)
    (hpos : 0 < TcpClientSocket.read_next_bytes (s.bytes.take kDoipheadrSize)) :
    TcpClientSocket.HandleMessage self s remote =
      ⟨self,
       ⟨[.read kDoipheadrSize,
         .read (TcpClientSocket.read_next_bytes (s.bytes.take kDoipheadrSize))],
        [kDoipheadrSize,
         kDoipheadrSize + TcpClientSocket.read_next_bytes (s.bytes.take kDoipheadrSize)],
        [⟨remote.address, remote.port,
          s.bytes.take kDoipheadrSize ++
          (boost_asio_read ⟨s.bytes.drop kDoipheadrSize, s.end_ec, s.end_is_error⟩
            (TcpClientSocket.read_next_bytes (s.bytes.take kDoipheadrSize))).data ++
          List.replicate
            (TcpClientSocket.read_next_bytes (s.bytes.take kDoipheadrSize) -
              (boost_asio_read ⟨s.bytes.drop kDoipheadrSize, s.end_ec, s.end_is_error⟩
                (TcpClientSocket.read_next_bytes (s.bytes.take kDoipheadrSize))).data.length)
            0⟩],
        (boost_asio_read ⟨s.bytes.drop kDoipheadrSize, s.end_ec, s.end_is_error⟩
          (TcpClientSocket.read_next_bytes (s.bytes.take kDoipheadrSize))).rest,
        .returned⟩⟩ := by
  have hl : (s.bytes.take kDoipheadrSize).length = kDoipheadrSize := by
    simp [List.length_take, h]
  have hx := vector_at_payload_destination (s.bytes.take kDoipheadrSize) _ hpos
  unfold TcpClientSocket.HandleMessage
  simp only [boost_asio_read_header s h, header_buffer_eq _ hl, if_true, frame_size_eq, hx,
    if_false, payload_buffer_eq _ _ _ hl]

/-- What `HandleMessage` does once the header has arrived with a length field that is not
zero, when `remote_endpoint()` throws. -/
theorem HandleMessage_header_ok_threw (self : TcpClientSocket) (s : ByteStream)
    (h : kDoipheadrSize ≤ s.bytes.length)
    (hpos : 0 < TcpClientSocket.read_next_bytes (s.bytes.take kDoipheadrSize)) :
    TcpClientSocket.HandleMessage self s none =
      ⟨self,
       ⟨[.read kDoipheadrSize,
         .read (TcpClientSocket.read_next_bytes (s.bytes.take kDoipheadrSize))],
        [kDoipheadrSize,
         kDoipheadrSize + TcpClientSocket.read_next_bytes (s.bytes.take kDoipheadrSize)],
        [],
        (boost_asio_read ⟨s.bytes.drop kDoipheadrSize, s.end_ec, s.end_is_error⟩
          (TcpClientSocket.read_next_bytes (s.bytes.take kDoipheadrSize))).rest,
        .threw⟩⟩ := by
  have hl : (s.bytes.take kDoipheadrSize).length = kDoipheadrSize := by
    simp [List.length_take, h]
  have hx := vector_at_payload_destination (s.bytes.take kDoipheadrSize) _ hpos
  unfold TcpClientSocket.HandleMessage
  simp only [boost_asio_read_header s h, header_buffer_eq _ hl, if_true, frame_size_eq, hx,
    if_false]

/-- What `HandleMessage` does once the header has arrived with a length field of zero: it
resizes the buffer to 8 elements and ends at the access `rx_buffer[kDoipheadrSize]`. -/
theorem HandleMessage_header_ok_zero (self : TcpClientSocket) (s : ByteStream)
    (remote : Option Endpoint) (h : kDoipheadrSize ≤ s.bytes.length)
    (hzero : TcpClientSocket.read_next_bytes (s.bytes.take kDoipheadrSize) = 0) :
    TcpClientSocket.HandleMessage self s remote =
      ⟨self,
       ⟨[.read kDoipheadrSize],
        [kDoipheadrSize,
         kDoipheadrSize + TcpClientSocket.read_next_bytes (s.bytes.take kDoipheadrSize)], [],
        ⟨s.bytes.drop kDoipheadrSize, s.end_ec, s.end_is_error⟩, .undefined_behaviour⟩⟩ := by
  have hl : (s.bytes.take kDoipheadrSize).length = kDoipheadrSize := by
    simp [List.length_take, h]
  have hx := vector_at_payload_destination_zero (s.bytes.take kDoipheadrSize) _ hzero
  unfold TcpClientSocket.HandleMessage
  simp only [boost_asio_read_header s h, header_buffer_eq _ hl, if_true, frame_size_eq, hx]

/-- What `HandleMessage` does when the header read fails. -/
theorem HandleMessage_header_failed (self : TcpClientSocket) (s : ByteStream)
    (remote : Option Endpoint) (h : s.bytes.length < kDoipheadrSize) :
    TcpClientSocket.HandleMessage self s remote =
      ⟨{ self with running_ := false },
       ⟨[.read kDoipheadrSize], [kDoipheadrSize], [], (header_read s).rest, .returned⟩⟩ := by
  have hne : (boost_asio_read s kDoipheadrSize).ec ≠ errc_success := by
    rw [Ne, boost_asio_read_ec_success]; omega
  unfold TcpClientSocket.HandleMessage header_read
  simp only [hne, if_false, ite_self]

theorem getD_lt_of_bytes (rx : List Nat) (hb : ∀ b ∈ rx, b < 256) (i : Nat) :
    rx.getD i 0 < 256 := by
  by_cases hi : i < rx.length
  · rw [List.getD_eq_getElem _ _ hi]
    exact hb _ (List.getElem_mem hi)
  · rw [List.getD_eq_default _ _ (by omega)]
    norm_num

theorem read_next_bytes_eq_be32 (rx : List Nat) (hb : ∀ b ∈ rx, b < 256) :
    TcpClientSocket.read_next_bytes rx
      = be32 (rx.getD 4 0) (rx.getD 5 0) (rx.getD 6 0) (rx.getD 7 0) := by
  unfold TcpClientSocket.read_next_bytes
  exact length_expression_eq _ _ _ _ (getD_lt_of_bytes rx hb 4) (getD_lt_of_bytes rx hb 5)
    (getD_lt_of_bytes rx hb 6) (getD_lt_of_bytes rx hb 7)

theorem getD_take_header (l : List Nat) (i : Nat) (hi : i < kDoipheadrSize) :
    (l.take kDoipheadrSize).getD i 0 = l.getD i 0 := by
  simp only [List.getD_eq_getElem?_getD, List.getElem?_take_of_lt hi]

theorem header_read_ok_iff (s : ByteStream) :
    (header_read s).ec = errc_success ↔ kDoipheadrSize ≤ s.bytes.length :=
  boost_asio_read_ec_success s kDoipheadrSize

theorem header_read_of_ok (s : ByteStream) (h : kDoipheadrSize ≤ s.bytes.length) :
    header_read s = ⟨s.bytes.take kDoipheadrSize, errc_success,
      ⟨s.bytes.drop kDoipheadrSize, s.end_ec, s.end_is_error⟩⟩ :=
  boost_asio_read_header s h

/-- What `HandleMessage` does once the header has arrived with a length field that is not
zero, when `remote_endpoint()` returns, in terms of the two reads. -/
theorem HandleMessage_of_header_read_ok (self : TcpClientSocket) (s : ByteStream)
    (remote : Endpoint) (hh : (header_read s).ec = errc_success) (hpos : 0 < payload_len s) :
    TcpClientSocket.HandleMessage self s remote =
      ⟨self,
       ⟨[.read kDoipheadrSize, .read (payload_len s)],
        [kDoipheadrSize, kDoipheadrSize + payload_len s],
        [⟨remote.address, remote.port,
          (header_read s).data ++ (payload_read s).data ++
            List.replicate (payload_len s - (payload_read s).data.length) 0⟩],
        (payload_read s).rest, .returned⟩⟩ := by
  have h := (header_read_ok_iff s).mp hh
  unfold payload_len at hpos
  rw [header_read_of_ok s h] at hpos
  rw [HandleMessage_header_ok self s remote h hpos]
  unfold payload_read payload_len
  rw [header_read_of_ok s h]

/-- What `HandleMessage` does once the header has arrived with a length field that is not
zero, when `remote_endpoint()` throws: both reads are done and nothing is delivered. -/
theorem HandleMessage_of_remote_endpoint_throws (self : TcpClientSocket) (s : ByteStream)
    (hh : (header_read s).ec = errc_success) (hpos : 0 < payload_len s) :
    TcpClientSocket.HandleMessage self s none =
      ⟨self,
       ⟨[.read kDoipheadrSize, .read (payload_len s)],
        [kDoipheadrSize, kDoipheadrSize + payload_len s], [], (payload_read s).rest,
        .threw⟩⟩ := by
  have h := (header_read_ok_iff s).mp hh
  unfold payload_len at hpos
  rw [header_read_of_ok s h] at hpos
  rw [HandleMessage_header_ok_threw self s h hpos]
  unfold payload_read payload_len
  rw [header_read_of_ok s h]

/-- What `HandleMessage` does once the header has arrived with a length field of zero: the
access `rx_buffer[kDoipheadrSize]` is out of range, no payload read is issued and nothing is
delivered. -/
theorem HandleMessage_of_zero_payload (self : TcpClientSocket) (s : ByteStream)
    (remote : Option Endpoint) (hh : (header_read s).ec = errc_success)
    (hzero : payload_len s = 0) :
    TcpClientSocket.HandleMessage self s remote =
      ⟨self,
       ⟨[.read kDoipheadrSize], [kDoipheadrSize, kDoipheadrSize + payload_len s], [],
        (header_read s).rest, .undefined_behaviour⟩⟩ := by
  have h := (header_read_ok_iff s).mp hh
  unfold payload_len at hzero
  rw [header_read_of_ok s h] at hzero
  rw [HandleMessage_header_ok_zero self s remote h hzero]
  unfold payload_len
  rw [header_read_of_ok s h]

/-- On every byte stream on which the header read and the payload read both succeed, with a
length field that is not zero and `remote_endpoint()` returning, `HandleMessage` invokes the
read handler exactly once, with a buffer that is the header as received followed by the
payload as received: its length is 8 + payload_len, its first 8 bytes are the first 8 bytes
of the stream and the rest are the next payload_len bytes of the stream, payload_len being
the big-endian length field of that header. -/
theorem HandleMessage_delivers_frame (self : TcpClientSocket) (s : ByteStream)
    (remote : Endpoint) (hb : ∀ b ∈ s.bytes, b < 256)
    (hh : (header_read s).ec = errc_success) (hp : (payload_read s).ec = errc_success)
    (hpos : 0 < payload_len s) :
    (TcpClientSocket.HandleMessage self s remote).effects.delivered
        = [⟨remote.address, remote.port, (header_read s).data ++ (payload_read s).data⟩] ∧
      (TcpClientSocket.HandleMessage self s remote).effects.ending = .returned ∧
      ((header_read s).data ++ (payload_read s).data).length = 8 + payload_len s ∧
      (header_read s).data = s.bytes.take 8 ∧
      (payload_read s).data = (s.bytes.drop 8).take (payload_len s) ∧
      (payload_read s).data.length = payload_len s ∧
      payload_len s = s.bytes.getD 4 0 * 2 ^ 24 + s.bytes.getD 5 0 * 2 ^ 16 +
        s.bytes.getD 6 0 * 2 ^ 8 + s.bytes.getD 7 0 := by
  have h := (header_read_ok_iff s).mp hh
  have hd := boost_asio_read_data_of_success _ _ hp
  have hhd := boost_asio_read_data_of_success _ _ hh
  have hrest : (header_read s).rest.bytes = s.bytes.drop 8 := hhd.2.2
  have hdata : (header_read s).data = s.bytes.take 8 := hhd.1
  have hlen : (header_read s).data.length = 8 := hhd.2.1
  have hpl : (payload_read s).data.length = payload_len s := hd.2.1
  refine ⟨?_, ?_, ?_, hdata, ?_, hpl, ?_⟩
  · rw [HandleMessage_of_header_read_ok self s remote hh hpos, hpl]
    simp
  · rw [HandleMessage_of_header_read_ok self s remote hh hpos]
  · rw [List.length_append, hlen, hpl]
  · have := hd.1
    rw [hrest] at this
    exact this
  · unfold payload_len
    rw [hdata]
    have hb8 : ∀ b ∈ s.bytes.take 8, b < 256 := fun b hm => hb b (List.mem_of_mem_take hm)
    rw [read_next_bytes_eq_be32 _ hb8]
    unfold be32
    have e := getD_take_header s.bytes
    unfold kDoipheadrSize at e
    rw [e 4 (by norm_num), e 5 (by norm_num), e 6 (by norm_num), e 7 (by norm_num)]

/-- A frame with two payload bytes, followed by one more byte, is delivered as its ten
bytes. -/
theorem two_byte_frame_delivered :
    (TcpClientSocket.HandleMessage reading_socket two_byte_frame gateway).effects.delivered
        = [⟨"192.168.10.1", 13400, [0x02, 0xFD, 0x80, 0x01, 0x00, 0x00, 0x00, 0x02, 0x50, 0x03]⟩] ∧
      payload_len two_byte_frame = 2 :=
  have h := HandleMessage_delivers_frame reading_socket two_byte_frame gateway
    (by decide) (by decide) (by decide) (by decide)
  ⟨h.1.trans (by decide), h.2.2.2.2.2.2.trans (by decide)⟩

/-! ## The claims -/

/-- C1, the code at the failing input: a complete frame whose length field is 0, on a socket
that is reading.  The header read succeeds and a payload read of 0 bytes succeeds on this
stream, so the claim promises one call of the read handler with the 8 header bytes.
`TcpClientSocket::HandleMessage` resizes `rx_buffer` to 8 elements and evaluates
`rx_buffer[kDoipheadrSize]`, element 8 of 8: it ends there, in undefined behaviour, before
the payload read is issued and without a call of the read handler. -/
theorem C1_zero_payload_frame_not_delivered :
    (header_read zero_payload_frame).ec = errc_success ∧
      payload_len zero_payload_frame = 0 ∧
      (payload_read zero_payload_frame).ec = errc_success ∧
      (TcpClientSocket.HandleMessage reading_socket zero_payload_frame
        gateway).effects.resizes = [8, 8] ∧
      (TcpClientSocket.HandleMessage reading_socket zero_payload_frame
        gateway).effects.ending = Ending.undefined_behaviour ∧
      (TcpClientSocket.HandleMessage reading_socket zero_payload_frame
        gateway).effects.calls = [SocketCall.read 8] ∧
      (TcpClientSocket.HandleMessage reading_socket zero_payload_frame
        gateway).effects.delivered = [] := by
  decide

/-- C2: for every 8-byte header, the payload length that the framed readers compute (the
`read_next_bytes` lambda of `TcpClientSocket::HandleMessage` and of
`TcpServerConnection::ReceivedMessage`) is the big-endian value of bytes 4..7,
h4 * 2^24 + h5 * 2^16 + h6 * 2^8 + h7, also when h4 is 0x80 or more, and it is the same for
any other bytes 0..3. -/
theorem C2_read_next_bytes_big_endian (h0 h1 h2 h3 h4 h5 h6 h7 : Nat)
    (b4 : h4 < 256) (b5 : h5 < 256) (b6 : h6 < 256) (b7 : h7 < 256) :
    TcpClientSocket.read_next_bytes [h0, h1, h2, h3, h4, h5, h6, h7]
        = h4 * 2 ^ 24 + h5 * 2 ^ 16 + h6 * 2 ^ 8 + h7 ∧
      TcpServerConnection.read_next_bytes [h0, h1, h2, h3, h4, h5, h6, h7]
        = h4 * 2 ^ 24 + h5 * 2 ^ 16 + h6 * 2 ^ 8 + h7 ∧
      ∀ g0 g1 g2 g3 : Nat,
        TcpClientSocket.read_next_bytes [g0, g1, g2, g3, h4, h5, h6, h7]
            = TcpClientSocket.read_next_bytes [h0, h1, h2, h3, h4, h5, h6, h7] ∧
          TcpServerConnection.read_next_bytes [g0, g1, g2, g3, h4, h5, h6, h7]
            = TcpServerConnection.read_next_bytes [h0, h1, h2, h3, h4, h5, h6, h7] := by
  have e := length_expression_eq h4 h5 h6 h7 b4 b5 b6 b7
  unfold be32 at e
  exact ⟨e, e, fun _ _ _ _ => ⟨rfl, rfl⟩⟩

/-- Witness of C2: a header whose byte 4 is 0x80. -/
theorem C2_read_next_bytes_big_endian_witness :
    TcpClientSocket.read_next_bytes [0x02, 0xFD, 0x80, 0x01, 0x80, 0x01, 0x02, 0x03]
      = 0x80 * 2 ^ 24 + 0x01 * 2 ^ 16 + 0x02 * 2 ^ 8 + 0x03 :=
  (C2_read_next_bytes_big_endian 0x02 0xFD 0x80 0x01 0x80 0x01 0x02 0x03
    (by decide) (by decide) (by decide) (by decide)).1

/-- C3: on every stream on which the header read fails (the peer closes, or any other read
error), `TcpClientSocket::HandleMessage` does not invoke the read handler and leaves
`running_` false, whatever it was before; it issues no second read. -/
theorem C3_header_read_failure_pauses_reader (self : TcpClientSocket) (s : ByteStream)
    (remote : Endpoint) (hh : (header_read s).ec ≠ errc_success) :
    (TcpClientSocket.HandleMessage self s remote).effects.delivered = [] ∧
      (TcpClientSocket.HandleMessage self s remote).self.running_ = false ∧
      (TcpClientSocket.HandleMessage self s remote).self.exit_request_ = self.exit_request_ ∧
      (TcpClientSocket.HandleMessage self s remote).effects.calls
        = [SocketCall.read kDoipheadrSize] := by
  have h : s.bytes.length < kDoipheadrSize := by
    have := (header_read_ok_iff s).not.mp hh
    omega
  rw [HandleMessage_header_failed self s remote h]
  exact ⟨rfl, rfl, rfl, rfl⟩

/-- Witness of C3: the peer closes after six header bytes while the socket is reading. -/
theorem C3_header_read_failure_pauses_reader_witness :
    (header_read six_header_bytes_then_eof).ec = asio_error_eof ∧
      (TcpClientSocket.HandleMessage reading_socket six_header_bytes_then_eof
        gateway).effects.delivered = [] ∧
      (TcpClientSocket.HandleMessage reading_socket six_header_bytes_then_eof
        gateway).self.running_ = false :=
  have h := C3_header_read_failure_pauses_reader reading_socket six_header_bytes_then_eof
    gateway (by decide)
  ⟨by decide, h.1, h.2.1⟩

/-- C4, the code at the failing input: the header announces four payload bytes, two arrive
and the peer closes.  The header read succeeds and the payload read fails with `eof`, yet
`TcpClientSocket::HandleMessage` passes a 12-byte buffer (the two missing bytes zero) to the
read handler and leaves `running_` true: the error code of the second read is never tested. -/
theorem C4_payload_read_failure_is_delivered :
    (header_read payload_cut_short).ec = errc_success ∧
      (payload_read payload_cut_short).ec = asio_error_eof ∧
      (TcpClientSocket.HandleMessage reading_socket payload_cut_short gateway).effects.delivered
        = [⟨"192.168.10.1", 13400,
            [0x02, 0xFD, 0x80, 0x01, 0x00, 0x00, 0x00, 0x04, 0x22, 0xF1, 0x00, 0x00]⟩] ∧
      (TcpClientSocket.HandleMessage reading_socket payload_cut_short gateway).self.running_
        = true := by
  decide

/-- C9: `TcpServerConnection::Shutdown` is idempotent on the socket: whatever the connection
state and whatever the shutdown calls report, after the first call the socket is closed, the
second call issues no call on the socket at all and leaves the connection as the first call
left it. -/
theorem C9_Shutdown_idempotent (self : TcpServerConnection)
    (tls_ec tcp_ec tls_ec2 tcp_ec2 : Int) :
    (TcpServerConnection.Shutdown self tls_ec tcp_ec).self.is_open = false ∧
      (TcpServerConnection.Shutdown (TcpServerConnection.Shutdown self tls_ec tcp_ec).self
          tls_ec2 tcp_ec2).calls = [] ∧
      (TcpServerConnection.Shutdown (TcpServerConnection.Shutdown self tls_ec tcp_ec).self
          tls_ec2 tcp_ec2).self = (TcpServerConnection.Shutdown self tls_ec tcp_ec).self ∧
      ((TcpServerConnection.Shutdown self tls_ec tcp_ec).calls
          = if self.is_open then [SocketCall.tls_shutdown, .shutdown_both, .close] else []) := by
  unfold TcpServerConnection.Shutdown
  rcases self with ⟨o⟩
  cases o <;> by_cases h : tcp_ec = errc_success <;> simp [h]

/-- What `ReceivedMessage` does once the header has arrived with a length field that is not
zero, when `remote_endpoint()` returns. -/
theorem ReceivedMessage_header_ok (s : ByteStream) (remote : Endpoint)
    (hh : (header_read s).ec = errc_success) (hpos : 0 < payload_len s) :
    TcpServerConnection.ReceivedMessage s remote =
      ⟨false,
       ⟨[.read kDoipheadrSize, .read (payload_len s)],
        [kDoipheadrSize, kDoipheadrSize + payload_len s],
        [⟨remote.address, remote.port,
          (header_read s).data ++ (payload_read s).data ++
            List.replicate (payload_len s - (payload_read s).data.length) 0⟩],
        (payload_read s).rest, .returned⟩⟩ := by
  have h := (header_read_ok_iff s).mp hh
  have hl : (s.bytes.take kDoipheadrSize).length = kDoipheadrSize := by
    simp [List.length_take, h]
  unfold payload_len at hpos
  rw [header_read_of_ok s h] at hpos
  have hx := vector_at_payload_destination (s.bytes.take kDoipheadrSize) _ hpos
  unfold payload_read payload_len
  rw [header_read_of_ok s h]
  unfold TcpServerConnection.ReceivedMessage
  simp only [boost_asio_read_header s h, header_buffer_eq _ hl, if_true,
    server_read_next_bytes_eq, frame_size_eq, hx, if_false, payload_buffer_eq _ _ _ hl]

/-- What `ReceivedMessage` does once the header has arrived with a length field that is not
zero, when `remote_endpoint()` throws. -/
theorem ReceivedMessage_remote_endpoint_throws (s : ByteStream)
    (hh : (header_read s).ec = errc_success) (hpos : 0 < payload_len s) :
    TcpServerConnection.ReceivedMessage s none =
      ⟨false,
       ⟨[.read kDoipheadrSize, .read (payload_len s)],
        [kDoipheadrSize, kDoipheadrSize + payload_len s], [], (payload_read s).rest,
        .threw⟩⟩ := by
  have h := (header_read_ok_iff s).mp hh
  have hl : (s.bytes.take kDoipheadrSize).length = kDoipheadrSize := by
    simp [List.length_take, h]
  unfold payload_len at hpos
  rw [header_read_of_ok s h] at hpos
  have hx := vector_at_payload_destination (s.bytes.take kDoipheadrSize) _ hpos
  unfold payload_read payload_len
  rw [header_read_of_ok s h]
  unfold TcpServerConnection.ReceivedMessage
  simp only [boost_asio_read_header s h, header_buffer_eq _ hl, if_true,
    server_read_next_bytes_eq, frame_size_eq, hx, if_false]

/-- What `ReceivedMessage` does once the header has arrived with a length field of zero. -/
theorem ReceivedMessage_zero_payload (s : ByteStream) (remote : Option Endpoint)
    (hh : (header_read s).ec = errc_success) (hzero : payload_len s = 0) :
    TcpServerConnection.ReceivedMessage s remote =
      ⟨false,
       ⟨[.read kDoipheadrSize], [kDoipheadrSize, kDoipheadrSize + payload_len s], [],
        (header_read s).rest, .undefined_behaviour⟩⟩ := by
  have h := (header_read_ok_iff s).mp hh
  have hl : (s.bytes.take kDoipheadrSize).length = kDoipheadrSize := by
    simp [List.length_take, h]
  unfold payload_len at hzero
  rw [header_read_of_ok s h] at hzero
  have hx := vector_at_payload_destination_zero (s.bytes.take kDoipheadrSize) _ hzero
  unfold payload_len
  rw [header_read_of_ok s h]
  unfold TcpServerConnection.ReceivedMessage
  simp only [boost_asio_read_header s h, header_buffer_eq _ hl, if_true,
    server_read_next_bytes_eq, frame_size_eq, hx]

/-- What `ReceivedMessage` does when the header read fails. -/
theorem ReceivedMessage_header_failed (s : ByteStream) (remote : Option Endpoint)
    (hh : (header_read s).ec ≠ errc_success) :
    TcpServerConnection.ReceivedMessage s remote =
      ⟨true, ⟨[.read kDoipheadrSize], [kDoipheadrSize], [], (header_read s).rest,
        .returned⟩⟩ := by
  unfold header_read at hh
  unfold TcpServerConnection.ReceivedMessage header_read
  simp only [hh, if_false, ite_self]

/-- C10: the TLS variant reads frames as the plain one does: on every byte stream, whichever
of the reads succeed or fail and whether `remote_endpoint()` returns or throws,
`TcpServerConnection::ReceivedMessage` passes to its read handler exactly the messages that
`TcpClientSocket::HandleMessage` passes to its own (none where that one passes none), with
the same reads and buffer sizes and the same way of ending, and its `connection_closed` is
true exactly when `HandleMessage`, called on a reading socket, leaves `running_` false. -/
theorem C10_ReceivedMessage_matches_HandleMessage (self : TcpClientSocket) (s : ByteStream)
    (remote : Option Endpoint) :
    (TcpServerConnection.ReceivedMessage s remote).effects.delivered
        = (TcpClientSocket.HandleMessage self s remote).effects.delivered ∧
      (TcpServerConnection.ReceivedMessage s remote).effects
        = (TcpClientSocket.HandleMessage self s remote).effects ∧
      ((TcpServerConnection.ReceivedMessage s remote).connection_closed = true ↔
        (TcpClientSocket.HandleMessage { self with running_ := true } s
          remote).self.running_ = false) ∧
      (TcpClientSocket.HandleMessage self s remote).self.running_
        = (self.running_ && !(TcpServerConnection.ReceivedMessage s remote).connection_closed)
      := by
  by_cases hh : (header_read s).ec = errc_success
  · by_cases hzero : payload_len s = 0
    · rw [ReceivedMessage_zero_payload s remote hh hzero,
        HandleMessage_of_zero_payload self s remote hh hzero,
        HandleMessage_of_zero_payload _ s remote hh hzero]
      simp
    · have hpos : 0 < payload_len s := Nat.pos_of_ne_zero hzero
      cases remote with
      | none =>
        rw [ReceivedMessage_remote_endpoint_throws s hh hpos,
          HandleMessage_of_remote_endpoint_throws self s hh hpos,
          HandleMessage_of_remote_endpoint_throws _ s hh hpos]
        simp
      | some endpoint_ =>
        rw [ReceivedMessage_header_ok s endpoint_ hh hpos,
          HandleMessage_of_header_read_ok self s endpoint_ hh hpos,
          HandleMessage_of_header_read_ok _ s endpoint_ hh hpos]
        simp
  · have hlt : s.bytes.length < kDoipheadrSize := by
      have := (header_read_ok_iff s).not.mp hh
      omega
    rw [ReceivedMessage_header_failed s remote hh, HandleMessage_header_failed self s remote hlt,
      HandleMessage_header_failed _ s remote hlt]
    simp

/-! ## The receive thread after an exit request -/

theorem reader_trace_finished (selves : List TcpClientSocket) :
    ∀ pc ∈ TcpClientSocket.reader_trace selves .finished, pc = .finished := by
  induction selves with
  | nil => intro pc h; simp [TcpClientSocket.reader_trace] at h
  | cons self selves ih =>
    intro pc h
    simp only [TcpClientSocket.reader_trace, TcpClientSocket.reader_step,
      List.mem_cons] at h
    rcases h with h | h
    · exact h
    · exact ih pc h

theorem reader_trace_while_cond (selves : List TcpClientSocket)
    (hexit : ∀ self ∈ selves, self.exit_request_ = true) :
    ∀ pc ∈ TcpClientSocket.reader_trace selves .while_cond, pc = .finished := by
  cases selves with
  | nil => intro pc h; simp [TcpClientSocket.reader_trace] at h
  | cons self selves =>
    intro pc h
    have he : self.exit_request_ = true := hexit self (List.mem_cons_self _ _)
    simp only [TcpClientSocket.reader_trace, TcpClientSocket.reader_step, he, Bool.not_true,
      Bool.false_eq_true, if_false, List.mem_cons] at h
    rcases h with h | h
    · exact h
    · exact reader_trace_finished selves pc h

/-- C12: in the receive loop of `TcpClientSocket`, whatever `running_` is and however other
threads change the object in between, once `exit_request_` is true at the moment the loop
condition or the wait predicate is evaluated (and stays true), the thread never reaches the
call of `HandleMessage` again and has left the loop after at most three steps; the wait
predicate holds by `exit_request_` alone, and the destructor sets it. -/
theorem C12_exit_request_ends_reader (selves : List TcpClientSocket)
    (pc : TcpClientSocket.ReaderPc)
    (hexit : ∀ self ∈ selves, self.exit_request_ = true)
    (hpc : pc = .while_cond ∨ pc = .wait) :
    TcpClientSocket.ReaderPc.handle_message ∉ TcpClientSocket.reader_trace selves pc ∧
      (∀ p ∈ (TcpClientSocket.reader_trace selves pc).drop 2,
        p = TcpClientSocket.ReaderPc.finished) ∧
      (∀ self ∈ selves, TcpClientSocket.reader_step self .wait = .if_not_exit_request ∧
        TcpClientSocket.reader_step self .while_cond = .finished) ∧
      (∀ self : TcpClientSocket, (TcpClientSocket.destructor self).exit_request_ = true) := by
  have hall : ∀ l : List TcpClientSocket.ReaderPc,
      (∀ p ∈ l, p = TcpClientSocket.ReaderPc.finished) →
        TcpClientSocket.ReaderPc.handle_message ∉ l := by
    intro l hl hm
    have := hl _ hm
    exact absurd this (by decide)
  refine ⟨?_, ?_, ?_, fun _ => rfl⟩
  · rcases hpc with h | h <;> subst h
    · exact hall _ (reader_trace_while_cond selves hexit)
    · match selves, hexit with
      | [], _ => simp [TcpClientSocket.reader_trace]
      | [a], hexit =>
        have ha : a.exit_request_ = true := hexit a (by simp)
        simp [TcpClientSocket.reader_trace, TcpClientSocket.reader_step, ha]
      | a :: b :: rest, hexit =>
        have ha : a.exit_request_ = true := hexit a (by simp)
        have hb : b.exit_request_ = true := hexit b (by simp)
        have hrest : ∀ self ∈ rest, self.exit_request_ = true :=
          fun self hm => hexit self (by simp [hm])
        simp only [TcpClientSocket.reader_trace, TcpClientSocket.reader_step, ha, hb,
          Bool.true_or, if_true, Bool.not_true, Bool.false_eq_true, if_false, List.mem_cons,
          not_or]
        exact ⟨by decide, by decide, hall _ (reader_trace_while_cond rest hrest)⟩
  · rcases hpc with h | h <;> subst h
    · intro p hp
      exact reader_trace_while_cond selves hexit p (List.mem_of_mem_drop hp)
    · match selves, hexit with
      | [], _ => simp [TcpClientSocket.reader_trace]
      | [a], _ => simp [TcpClientSocket.reader_trace]
      | a :: b :: rest, hexit =>
        have ha : a.exit_request_ = true := hexit a (by simp)
        have hb : b.exit_request_ = true := hexit b (by simp)
        have hrest : ∀ self ∈ rest, self.exit_request_ = true :=
          fun self hm => hexit self (by simp [hm])
        simp only [TcpClientSocket.reader_trace, TcpClientSocket.reader_step, ha, hb,
          Bool.true_or, if_true, Bool.not_true, Bool.false_eq_true, if_false, List.drop]
        exact reader_trace_while_cond rest hrest
  · intro self hm
    have he := hexit self hm
    simp [TcpClientSocket.reader_step, he]

/-- Witness of C12: a paused reader (in the wait, `running_` false) that the destructor of a
newly constructed socket wakes: it passes the test of `exit_request_`, the loop condition,
and ends. -/
theorem C12_exit_request_ends_reader_witness :
    TcpClientSocket.reader_trace
        (List.replicate 4 (TcpClientSocket.destructor (TcpClientSocket.construct "10.0.0.2" 0)))
        .wait = [.if_not_exit_request, .while_cond, .finished, .finished] ∧
      TcpClientSocket.ReaderPc.handle_message ∉ TcpClientSocket.reader_trace
        (List.replicate 4 (TcpClientSocket.destructor (TcpClientSocket.construct "10.0.0.2" 0)))
        .wait :=
  ⟨by decide,
   (C12_exit_request_ends_reader
      (List.replicate 4 (TcpClientSocket.destructor (TcpClientSocket.construct "10.0.0.2" 0)))
      .wait (by decide) (Or.inr rfl)).1⟩

/-! ## The index of the payload destination -/

/-- The size of `rx_buffer` when `HandleMessage` takes the payload destination. -/
theorem rx_buffer_at_payload_read_length (s : ByteStream)
    (hh : (header_read s).ec = errc_success) :
    (TcpClientSocket.rx_buffer_at_payload_read s).length = kDoipheadrSize + payload_len s := by
  have h := (header_read_ok_iff s).mp hh
  have hl : (s.bytes.take kDoipheadrSize).length = kDoipheadrSize := by
    simp [List.length_take, h]
  unfold payload_len
  rw [header_read_of_ok s h]
  unfold TcpClientSocket.rx_buffer_at_payload_read
  simp only [boost_asio_read_header s h, header_buffer_eq _ hl, frame_size_eq,
    vector_resize_length]

/-- The two readers resize `rx_buffer` alike. -/
theorem server_rx_buffer_at_payload_read_eq (s : ByteStream) :
    TcpServerConnection.rx_buffer_at_payload_read s
      = TcpClientSocket.rx_buffer_at_payload_read s := rfl

/-- After a successful header read the index `kDoipheadrSize` designates an element of the
resized `rx_buffer` exactly when the length field is not zero. -/
theorem payload_destination_valid_iff (s : ByteStream)
    (hh : (header_read s).ec = errc_success) :
    vector_at (TcpClientSocket.rx_buffer_at_payload_read s) kDoipheadrSize ≠ none
      ↔ 0 < payload_len s := by
  rw [Ne, vector_at_eq_none_iff, rx_buffer_at_payload_read_length s hh]
  omega

/-- C13, the code at the failing input: a frame whose length field is 0.  The header read
succeeds, both readers resize `rx_buffer` to 8 elements and then evaluate
`rx_buffer[kDoipheadrSize]`, that is element 8 of a vector whose elements are 0..7: the
index equals the size and designates no element. -/
theorem C13_zero_payload_index_past_the_end :
    (header_read zero_payload_frame).ec = errc_success ∧
      payload_len zero_payload_frame = 0 ∧
      (TcpClientSocket.rx_buffer_at_payload_read zero_payload_frame).length = 8 ∧
      kDoipheadrSize = 8 ∧
      vector_at (TcpClientSocket.rx_buffer_at_payload_read zero_payload_frame)
        kDoipheadrSize = none ∧
      (TcpServerConnection.rx_buffer_at_payload_read zero_payload_frame).length = 8 ∧
      vector_at (TcpServerConnection.rx_buffer_at_payload_read zero_payload_frame)
        kDoipheadrSize = none ∧
      (TcpClientSocket.HandleMessage reading_socket zero_payload_frame
        gateway).effects.resizes = [8, 8] := by
  decide

/-! ## The text of a log message -/

/-- With `USE_DLT` the text handed to DLT carries the caller's function name where the
console text carries the file name: `LogFatal` passes `file_name, func_name` to
`LogDltMessage`, whose parameters are `func_name, file_name` in this order. -/
theorem LogFatal_dlt_eq (enabled : Int → Bool) (file_name func_name : String) (line_no : Int)
    (func : String → String) :
    Logger.LogFatal_dlt enabled file_name line_no func_name func
      = if enabled Logger.DLT_LOG_FATAL then
          some (Logger.c_str (func "" ++ " [" ++ func_name ++ ":" ++ toString line_no ++ "]"))
        else none := rfl

theorem LogFatal_console_eq (file_name func_name : String) (line_no : Int)
    (func : String → String) :
    Logger.LogFatal_console file_name line_no func_name func
      = "[FATAL]:   " ++ (func "" ++ " [" ++ file_name ++ ":" ++ toString line_no ++ "]")
          ++ "\n" := rfl

/-- C14, the code at the failing input: the call
`LogFatal("tcp_client.cpp", 80, "Open", writer)` and the same call of `LogError`, the writer
emitting `Tcp Socket binding failed`, every log level enabled.  On the console path the text
after the level prefix ends in `[tcp_client.cpp:80]`; on the DLT path it ends in `[Open:80]`:
the function name stands where the file name should. -/
theorem C14_dlt_text_names_function_not_file :
    Logger.LogFatal_console "tcp_client.cpp" 80 "Open" Logger.binding_failed_writer
        = "[FATAL]:   " ++ "Tcp Socket binding failed [tcp_client.cpp:80]" ++ "\n" ∧
      Logger.LogFatal_dlt (fun _ => true) "tcp_client.cpp" 80 "Open"
        Logger.binding_failed_writer = some "Tcp Socket binding failed [Open:80]" ∧
      Logger.LogError_console "tcp_client.cpp" 80 "Open" Logger.binding_failed_writer
        = "[ERROR]:   " ++ "Tcp Socket binding failed [tcp_client.cpp:80]" ++ "\n" ∧
      Logger.LogError_dlt (fun _ => true) "tcp_client.cpp" 80 "Open"
        Logger.binding_failed_writer = some "Tcp Socket binding failed [Open:80]" := by
  decide

/-! ## Routing activation -/

/-- The wait ends with the first routing activation response among the received frames, or
with the timeout when there is none. -/
theorem WaitForResponse_eq (received : List RoutingActivationHandler.DoipMessage) :
    RoutingActivationHandler.WaitForResponse received =
      match received.find? (fun f => f.payload_type == 0x0006) with
      | none => (.kRoutingActivationFailed, .kRoutingActivationFailed)
      | some f =>
        if f.response_code = 0x10 then
          (.kRoutingActivationSuccessful, .kRoutingActivationSuccessful)
        else (.kRoutingActivationFailed, .kRoutingActivationFailed) := by
  induction received with
  | nil => rfl
  | cons f rest ih =>
    unfold RoutingActivationHandler.WaitForResponse
    by_cases ht : f.payload_type = 0x0006
    · by_cases hc : f.response_code = 0x10 <;>
        simp [RoutingActivationHandler.ProcessDoIPRoutingActivationResponse,
          RoutingActivationHandler.kDoipRoutingActivationResponseType,
          RoutingActivationHandler.kRoutingSuccessfullyActivated, ht, hc, List.find?]
    · have hb : (f.payload_type == 0x0006) = false := by simpa using ht
      simp only [RoutingActivationHandler.ProcessDoIPRoutingActivationResponse,
        RoutingActivationHandler.kDoipRoutingActivationResponseType, ht, if_false,
        List.find?, hb]
      exact ih

/-- C11: for every routing activation request issued through
`HandleRoutingActivationRequest` (handler in `kIdle`), whatever frames are received before
the timeout: the result is `kRoutingActivationSuccessful` if and only if the routing
activation response processed while the handler waits (the first received frame of payload
type 0x0006) has response code 0x10; it is `kRoutingActivationFailed` if and only if that
response has another code or none arrives before the timeout; the sub-state reached is the
one named by the result; and `IsRoutingActivated` is true exactly in the sub-state
`kRoutingActivationSuccessful`. -/
theorem C11_routing_activation_result (received : List RoutingActivationHandler.DoipMessage)
    (state : RoutingActivationHandler.State) :
    ((RoutingActivationHandler.HandleRoutingActivationRequest .kIdle received).map Prod.fst
          = some .kRoutingActivationSuccessful ↔
        ∃ f, received.find? (fun f => f.payload_type == 0x0006) = some f ∧
          f.response_code = 0x10) ∧
      ((RoutingActivationHandler.HandleRoutingActivationRequest .kIdle received).map Prod.fst
          = some .kRoutingActivationFailed ↔
        received.find? (fun f => f.payload_type == 0x0006) = none ∨
          ∃ f, received.find? (fun f => f.payload_type == 0x0006) = some f ∧
            f.response_code ≠ 0x10) ∧
      ((RoutingActivationHandler.HandleRoutingActivationRequest .kIdle received).map Prod.snd
          = some .kRoutingActivationSuccessful ↔
        (RoutingActivationHandler.HandleRoutingActivationRequest .kIdle received).map Prod.fst
          = some .kRoutingActivationSuccessful) ∧
      ((RoutingActivationHandler.HandleRoutingActivationRequest .kIdle received).map Prod.snd
          = some .kRoutingActivationFailed ↔
        (RoutingActivationHandler.HandleRoutingActivationRequest .kIdle received).map Prod.fst
          = some .kRoutingActivationFailed) ∧
      (RoutingActivationHandler.IsRoutingActivated state = true ↔
        state = .kRoutingActivationSuccessful) ∧
      (RoutingActivationHandler.HandleRoutingActivationRequest .kIdle
          [RoutingActivationHandler.activation_accepted]
        = some (.kRoutingActivationSuccessful, .kRoutingActivationSuccessful)) ∧
      (RoutingActivationHandler.HandleRoutingActivationRequest .kIdle
          [RoutingActivationHandler.activation_rejected]
        = some (.kRoutingActivationFailed, .kRoutingActivationFailed)) ∧
      (RoutingActivationHandler.HandleRoutingActivationRequest .kIdle []
        = some (.kRoutingActivationFailed, .kRoutingActivationFailed)) := by
  have hw := WaitForResponse_eq received
  refine ⟨?_, ?_, ?_, ?_, ?_, by decide, by decide, by decide⟩
  all_goals try simp only [RoutingActivationHandler.HandleRoutingActivationRequest,
    Option.map_some', hw]
  · cases hf : received.find? (fun f => f.payload_type == 0x0006) with
    | none => simp
    | some f => by_cases hc : f.response_code = 0x10 <;> simp [hc]
  · cases hf : received.find? (fun f => f.payload_type == 0x0006) with
    | none => simp
    | some f => by_cases hc : f.response_code = 0x10 <;> simp [hc]
  · cases hf : received.find? (fun f => f.payload_type == 0x0006) with
    | none => simp
    | some f => by_cases hc : f.response_code = 0x10 <;> simp [hc]
  · cases hf : received.find? (fun f => f.payload_type == 0x0006) with
    | none => simp
    | some f => by_cases hc : f.response_code = 0x10 <;> simp [hc]
  · cases state <;> decide
